import Mathlib

/-!
Verification of the libdeye device state/command codec and the MQTT
state-synchronization protocol model.

The definitions below are a shallow embedding of the Python sources:
  * `src/libdeye/const.py` — enums `DeyeDeviceMode`, `DeyeFanSpeed`;
  * `src/libdeye/device_state.py` — `DeyeDeviceState`, `_parse_state_classic`,
    `_parse_state_fog`, `to_command`, `__eq__`, `DeyeDeviceStateFlag`;
  * `src/libdeye/device_command.py` — `DeyeDeviceCommand`, `to_bytes`,
    `DeyeDeviceCommandFlag`;
  * `src/libdeye/device_state_command.py` — the legacy copies
    `deal_v1_state` and `DeyeDeviceCommand.bytes`;
  * `src/libdeye/mqtt_client.py` — the pending-command queue, the
    subscriber registry with its `unsubscribe` closure, and the one-shot
    `query_device_state` resolution guard.

Python `str` values are modelled as `List Char`, `bytes` as `List Nat`
(entries in `0..255`), Python `int` as `Int` (or `Nat` where the source
value is a byte or a bitmask), and fallible operations (exceptions such as
`ValueError`, `IndexError`, `KeyError`) as `Option` results where `none`
means the Python code raises.
-/

namespace Libdeye

/-- `DeyeFanSpeed` from `const.py`: STOPPED=0, LOW=1, MIDDLE=2, HIGH=3, FULL=4. -/
inductive DeyeFanSpeed where
  | STOPPED
  | LOW
  | MIDDLE
  | HIGH
  | FULL
deriving DecidableEq, Repr

/-- Integer value of a `DeyeFanSpeed` member (the `IntEnum` value). -/
def DeyeFanSpeed.toNat : DeyeFanSpeed → Nat
  | .STOPPED => 0
  | .LOW => 1
  | .MIDDLE => 2
  | .HIGH => 3
  | .FULL => 4

/-- Models the Python enum constructor `DeyeFanSpeed(n)`: `none` when `n` is
not a member value (Python raises `ValueError`). -/
def DeyeFanSpeed.ofNat? : Nat → Option DeyeFanSpeed
  | 0 => some .STOPPED
  | 1 => some .LOW
  | 2 => some .MIDDLE
  | 3 => some .HIGH
  | 4 => some .FULL
  | _ => none

/-- Models `DeyeFanSpeed(i)` for a Python `int` argument. -/
def DeyeFanSpeed.ofInt? (i : Int) : Option DeyeFanSpeed :=
  if i < 0 then none else DeyeFanSpeed.ofNat? i.toNat

/-- `DeyeDeviceMode` from `const.py`: MANUAL=0, CLOTHES_DRYER=1, AIR_PURIFIER=2,
AUTO=3, UNKNOWN=4, UNKNOWN_2=5, SLEEP=6. -/
inductive DeyeDeviceMode where
  | MANUAL_MODE
  | CLOTHES_DRYER_MODE
  | AIR_PURIFIER_MODE
  | AUTO_MODE
  | UNKNOWN_MODE
  | UNKNOWN_MODE_2
  | SLEEP_MODE
deriving DecidableEq, Repr

/-- Integer value of a `DeyeDeviceMode` member (the `IntEnum` value). -/
def DeyeDeviceMode.toNat : DeyeDeviceMode → Nat
  | .MANUAL_MODE => 0
  | .CLOTHES_DRYER_MODE => 1
  | .AIR_PURIFIER_MODE => 2
  | .AUTO_MODE => 3
  | .UNKNOWN_MODE => 4
  | .UNKNOWN_MODE_2 => 5
  | .SLEEP_MODE => 6

/-- Models the Python enum constructor `DeyeDeviceMode(n)`: `none` when `n`
is not a member value (Python raises `ValueError`). -/
def DeyeDeviceMode.ofNat? : Nat → Option DeyeDeviceMode
  | 0 => some .MANUAL_MODE
  | 1 => some .CLOTHES_DRYER_MODE
  | 2 => some .AIR_PURIFIER_MODE
  | 3 => some .AUTO_MODE
  | 4 => some .UNKNOWN_MODE
  | 5 => some .UNKNOWN_MODE_2
  | 6 => some .SLEEP_MODE
  | _ => none

/-- Models `DeyeDeviceMode(i)` for a Python `int` argument. -/
def DeyeDeviceMode.ofInt? (i : Int) : Option DeyeDeviceMode :=
  if i < 0 then none else DeyeDeviceMode.ofNat? i.toNat

namespace DeyeDeviceStateFlag

/-! Bit flags of `DeyeDeviceStateFlag` in `device_state.py` (an `IntFlag`
with `auto()` members, so the n-th member has value `2^n`). -/

def ANION_SWITCH : Nat := 1
def WATER_PUMP_SWITCH : Nat := 2
def ELECTROMAGNETIC_STATE : Nat := 4
def PRESS_STATE : Nat := 8
def ENVIRONMENT_DEGREE : Nat := 16
def POWER_SWITCH : Nat := 256
def OSCILLATING_SWITCH : Nat := 512
def CHILD_LOCK_SWITCH : Nat := 1024
def POWEROFF_SWITCH : Nat := 2048
def POWERON_SWITCH : Nat := 4096
def DEFROSTING_STATE : Nat := 8192
def WATER_TANK_FULL_STATE : Nat := 16384
def FAN_RUNNING_STATE : Nat := 32768

end DeyeDeviceStateFlag

namespace DeyeDeviceCommandFlag

/-! Bit flags of `DeyeDeviceCommandFlag` in `device_command.py`. -/

def POWER_SWITCH : Nat := 1
def OSCILLATING_SWITCH : Nat := 2
def CHILD_LOCK_SWITCH : Nat := 4
def POWEROFF_SWITCH : Nat := 8
def POWERON_SWITCH : Nat := 16
def WATER_PUMP_SWITCH : Nat := 32
def ANION_SWITCH : Nat := 64

end DeyeDeviceCommandFlag

/-- `DeyeDeviceState` from `device_state.py`. Field defaults are the ones
assigned in `__init__`. The source prefixes the last seven ("unused")
fields with an underscore; the names here drop it. -/
structure DeyeDeviceState where
  anion_switch : Bool := false
  water_pump_switch : Bool := false
  power_switch : Bool := false
  oscillating_switch : Bool := false
  child_lock_switch : Bool := false
  defrosting : Bool := false
  water_tank_full : Bool := false
  fan_running : Bool := false
  fan_speed : DeyeFanSpeed := .STOPPED
  mode : DeyeDeviceMode := .SLEEP_MODE
  target_humidity : Int := 60
  environment_temperature : Int := 27
  environment_humidity : Int := 27
  electromagnetic_state : Bool := false
  press_state : Bool := false
  environment_degree : Bool := false
  poweroff_switch : Bool := false
  poweron_switch : Bool := false
  coil_temperature : Int := 27
  exhaust_temperature : Int := 27
deriving DecidableEq, Repr

/-- `DeyeDeviceCommand` from `device_command.py` with its constructor
defaults. -/
structure DeyeDeviceCommand where
  anion_switch : Bool := false
  water_pump_switch : Bool := false
  power_switch : Bool := false
  oscillating_switch : Bool := false
  child_lock_switch : Bool := false
  fan_speed : DeyeFanSpeed := .LOW
  mode : DeyeDeviceMode := .MANUAL_MODE
  target_humidity : Int := 60
deriving DecidableEq, Repr

/-- Hex digit value of a character, as accepted by `bytes.fromhex` /
`int(ch, 16)`: `0-9`, `a-f`, `A-F`; `none` otherwise (Python raises
`ValueError`). -/
def hexDigitVal? (c : Char) : Option Nat :=
  let n := c.toNat
  if 48 ≤ n ∧ n ≤ 57 then some (n - 48)
  else if 97 ≤ n ∧ n ≤ 102 then some (n - 97 + 10)
  else if 65 ≤ n ∧ n ≤ 70 then some (n - 65 + 10)
  else none

/-- Models `bytes.fromhex(s)` on a whitespace-free string: consume
characters two at a time, `none` on an odd-length string or a non-hex
character (Python raises `ValueError`). -/
def bytesFromHex? : List Char → Option (List Nat)
  | [] => some []
  | [_] => none
  | c1 :: c2 :: rest => do
    let hi ← hexDigitVal? c1
    let lo ← hexDigitVal? c2
    let bs ← bytesFromHex? rest
    some ((16 * hi + lo) :: bs)

/-- Models `int.from_bytes(bs, byteorder="big")`. -/
def intFromBytesBE (l : List Nat) : Nat :=
  l.foldl (fun acc b => acc * 256 + b) 0

/-- `DeyeDeviceState._parse_state_classic` from `device_state.py`, merged
with the `__init__` defaults it overwrites. `none` models a raised
exception: malformed hex (`ValueError`), an out-of-range index
(`IndexError` on `state[8]`, `state[9]`, `state_hex[5]`, `state_hex[14..17]`),
or an invalid enum value (`ValueError` in `DeyeFanSpeed`/`DeyeDeviceMode`). -/
def parse_state_classic (state : List Char) : Option DeyeDeviceState := do
  let state_hex ← bytesFromHex? state
  let state_flag := intFromBytesBE ((state_hex.drop 2).take 2)
  let c8 ← state.get? 8
  let v8 ← hexDigitVal? c8
  let fan_speed ← DeyeFanSpeed.ofNat? v8
  let c9 ← state.get? 9
  let v9 ← hexDigitVal? c9
  let mode ← DeyeDeviceMode.ofNat? v9
  let target_humidity ← state_hex.get? 5
  let environment_temperature ← state_hex.get? 15
  let environment_humidity ← state_hex.get? 16
  let coil_temperature ← state_hex.get? 14
  let exhaust_temperature ← state_hex.get? 17
  some
    { anion_switch := decide (0 < state_flag &&& DeyeDeviceStateFlag.ANION_SWITCH)
      water_pump_switch := decide (0 < state_flag &&& DeyeDeviceStateFlag.WATER_PUMP_SWITCH)
      power_switch := decide (0 < state_flag &&& DeyeDeviceStateFlag.POWER_SWITCH)
      oscillating_switch := decide (0 < state_flag &&& DeyeDeviceStateFlag.OSCILLATING_SWITCH)
      child_lock_switch := decide (0 < state_flag &&& DeyeDeviceStateFlag.CHILD_LOCK_SWITCH)
      defrosting := decide (0 < state_flag &&& DeyeDeviceStateFlag.DEFROSTING_STATE)
      water_tank_full := decide (0 < state_flag &&& DeyeDeviceStateFlag.WATER_TANK_FULL_STATE)
      fan_running := decide (0 < state_flag &&& DeyeDeviceStateFlag.FAN_RUNNING_STATE)
      fan_speed := fan_speed
      mode := mode
      target_humidity := (target_humidity : Int)
      environment_temperature := (environment_temperature : Int) - 40
      environment_humidity := (environment_humidity : Int)
      electromagnetic_state := decide (0 < state_flag &&& DeyeDeviceStateFlag.ELECTROMAGNETIC_STATE)
      press_state := decide (0 < state_flag &&& DeyeDeviceStateFlag.PRESS_STATE)
      environment_degree := decide (0 < state_flag &&& DeyeDeviceStateFlag.ENVIRONMENT_DEGREE)
      poweroff_switch := decide (0 < state_flag &&& DeyeDeviceStateFlag.POWEROFF_SWITCH)
      poweron_switch := decide (0 < state_flag &&& DeyeDeviceStateFlag.POWERON_SWITCH)
      coil_temperature := (coil_temperature : Int) - 40
      exhaust_temperature := (exhaust_temperature : Int) - 40 }

/-- The `DeyeApiResponseFogPlatformDeviceProperties` map from
`cloud_api.py`, restricted to the keys `_parse_state_fog` reads. The eight
keys read with `state[...]` are required (a missing key would raise
`KeyError`); the keys read with `state.get(...)` are optional. -/
structure FogProperties where
  NegativeIon : Int
  WaterPump : Int
  Power : Int
  SwingingWind : Int
  KeyLock : Int
  Demisting : Int
  WaterTank : Int
  Fan : Int
  WindSpeed : Option Int := none
  Mode : Option Int := none
  SetHumidity : Option Int := none
  CurrentAmbientTemperature : Option Int := none
  CurrentEnvironmentalHumidity : Option Int := none
  CurrentCoilTemperature : Option Int := none
  CurrentExhaustTemperature : Option Int := none
deriving DecidableEq, Repr

/-- `DeyeDeviceState._parse_state_fog` from `device_state.py`, merged with
the `__init__` defaults it leaves untouched. `bool(v)` on a Python int is
`v != 0`; `state.get(k, d)` is `Option.getD`; `none` models `ValueError`
from an enum constructor on an out-of-range value. -/
def parse_state_fog (p : FogProperties) : Option DeyeDeviceState := do
  let fan_speed ← DeyeFanSpeed.ofInt? (p.WindSpeed.getD 0)
  let mode ← DeyeDeviceMode.ofInt? (p.Mode.getD 6)
  some
    { anion_switch := decide (p.NegativeIon ≠ 0)
      water_pump_switch := decide (p.WaterPump ≠ 0)
      power_switch := decide (p.Power ≠ 0)
      oscillating_switch := decide (p.SwingingWind ≠ 0)
      child_lock_switch := decide (p.KeyLock ≠ 0)
      defrosting := decide (p.Demisting ≠ 0)
      water_tank_full := decide (p.WaterTank ≠ 0)
      fan_running := decide (p.Fan ≠ 0)
      fan_speed := fan_speed
      mode := mode
      target_humidity := p.SetHumidity.getD 60
      environment_temperature := p.CurrentAmbientTemperature.getD 27
      environment_humidity := p.CurrentEnvironmentalHumidity.getD 27
      electromagnetic_state := false
      press_state := false
      environment_degree := false
      poweroff_switch := false
      poweron_switch := false
      coil_temperature := p.CurrentCoilTemperature.getD 27
      exhaust_temperature := p.CurrentExhaustTemperature.getD 27 }

/-- `DeyeDeviceState.to_command` from `device_state.py`. -/
def DeyeDeviceState.to_command (s : DeyeDeviceState) : DeyeDeviceCommand :=
  { anion_switch := s.anion_switch
    water_pump_switch := s.water_pump_switch
    power_switch := s.power_switch
    oscillating_switch := s.oscillating_switch
    child_lock_switch := s.child_lock_switch
    fan_speed := s.fan_speed
    mode := s.mode
    target_humidity := s.target_humidity }

/-- `DeyeDeviceState.__eq__` from `device_state.py`: compares exactly the
thirteen public fields, ignoring the seven underscore-prefixed diagnostic
fields. -/
def DeyeDeviceState.eq (s other : DeyeDeviceState) : Bool :=
  decide (s.anion_switch = other.anion_switch)
    && decide (s.water_pump_switch = other.water_pump_switch)
    && decide (s.power_switch = other.power_switch)
    && decide (s.oscillating_switch = other.oscillating_switch)
    && decide (s.child_lock_switch = other.child_lock_switch)
    && decide (s.defrosting = other.defrosting)
    && decide (s.water_tank_full = other.water_tank_full)
    && decide (s.fan_running = other.fan_running)
    && decide (s.fan_speed = other.fan_speed)
    && decide (s.mode = other.mode)
    && decide (s.target_humidity = other.target_humidity)
    && decide (s.environment_temperature = other.environment_temperature)
    && decide (s.environment_humidity = other.environment_humidity)

/-- The `command_flag` accumulated by `DeyeDeviceCommand.to_bytes` in
`device_command.py` (successive `|=` in source order). -/
def DeyeDeviceCommand.commandFlag (c : DeyeDeviceCommand) : Nat :=
  ((((0 ||| (if c.anion_switch then DeyeDeviceCommandFlag.ANION_SWITCH else 0))
      ||| (if c.water_pump_switch then DeyeDeviceCommandFlag.WATER_PUMP_SWITCH else 0))
      ||| (if c.power_switch then DeyeDeviceCommandFlag.POWER_SWITCH else 0))
      ||| (if c.oscillating_switch then DeyeDeviceCommandFlag.OSCILLATING_SWITCH else 0))
      ||| (if c.child_lock_switch then DeyeDeviceCommandFlag.CHILD_LOCK_SWITCH else 0)

/-- `DeyeDeviceCommand.to_bytes` from `device_command.py`. `bytes([...])`
raises `ValueError` (modelled by `none`) when an entry is outside `0..255`;
only `target_humidity` can be out of range (the flag byte is at most `0x67`
and the fan/mode byte at most `0x46`). -/
def DeyeDeviceCommand.to_bytes (c : DeyeDeviceCommand) : Option (List Nat) :=
  if 0 ≤ c.target_humidity ∧ c.target_humidity < 256 then
    some [0x08, 0x02, c.commandFlag,
          c.fan_speed.toNat <<< 4 ||| c.mode.toNat,
          c.target_humidity.toNat, 0, 0, 0, 0, 0]
  else none

namespace Legacy

/-! Shallow embedding of the legacy copies in `device_state_command.py`
(with its flag enums from `types.py`). The legacy classes have exactly the
same fields as the current ones, so the `DeyeDeviceState` and
`DeyeDeviceCommand` structures above are reused as the field carriers. -/

namespace DeyeDeviceStateFlag

/-! `DeyeDeviceStateFlag` from `types.py` (`IntFlag` with `auto()`). -/

def ANION_SWITCH : Nat := 1
def WATER_PUMP_SWITCH : Nat := 2
def ELECTROMAGNETIC_STATE : Nat := 4
def PRESS_STATE : Nat := 8
def ENVIRONMENT_DEGREE : Nat := 16
def POWER_SWITCH : Nat := 256
def OSCILLATING_SWITCH : Nat := 512
def CHILD_LOCK_SWITCH : Nat := 1024
def POWEROFF_SWITCH : Nat := 2048
def POWERON_SWITCH : Nat := 4096
def DEFROSTING_STATE : Nat := 8192
def WATER_TANK_FULL_STATE : Nat := 16384
def FAN_RUNNING_STATE : Nat := 32768

end DeyeDeviceStateFlag

namespace DeyeDeviceCommandFlag

/-! `DeyeDeviceCommandFlag` from `types.py`. -/

def POWER_SWITCH : Nat := 1
def OSCILLATING_SWITCH : Nat := 2
def CHILD_LOCK_SWITCH : Nat := 4
def POWEROFF_SWITCH : Nat := 8
def POWERON_SWITCH : Nat := 16
def WATER_PUMP_SWITCH : Nat := 32
def ANION_SWITCH : Nat := 64

end DeyeDeviceCommandFlag

/-- `DeyeDeviceState.deal_v1_state` from `device_state_command.py`, merged
with the `__init__` defaults it overwrites, exceptions modelled by `none`
exactly as in `parse_state_classic` above. -/
def deal_v1_state (state : List Char) : Option DeyeDeviceState := do
  let state_hex ← bytesFromHex? state
  let state_flag := intFromBytesBE ((state_hex.drop 2).take 2)
  let c8 ← state.get? 8
  let v8 ← hexDigitVal? c8
  let fan_speed ← DeyeFanSpeed.ofNat? v8
  let c9 ← state.get? 9
  let v9 ← hexDigitVal? c9
  let mode ← DeyeDeviceMode.ofNat? v9
  let target_humidity ← state_hex.get? 5
  let environment_temperature ← state_hex.get? 15
  let environment_humidity ← state_hex.get? 16
  let coil_temperature ← state_hex.get? 14
  let exhaust_temperature ← state_hex.get? 17
  some
    { anion_switch := decide (0 < state_flag &&& DeyeDeviceStateFlag.ANION_SWITCH)
      water_pump_switch := decide (0 < state_flag &&& DeyeDeviceStateFlag.WATER_PUMP_SWITCH)
      power_switch := decide (0 < state_flag &&& DeyeDeviceStateFlag.POWER_SWITCH)
      oscillating_switch := decide (0 < state_flag &&& DeyeDeviceStateFlag.OSCILLATING_SWITCH)
      child_lock_switch := decide (0 < state_flag &&& DeyeDeviceStateFlag.CHILD_LOCK_SWITCH)
      defrosting := decide (0 < state_flag &&& DeyeDeviceStateFlag.DEFROSTING_STATE)
      water_tank_full := decide (0 < state_flag &&& DeyeDeviceStateFlag.WATER_TANK_FULL_STATE)
      fan_running := decide (0 < state_flag &&& DeyeDeviceStateFlag.FAN_RUNNING_STATE)
      fan_speed := fan_speed
      mode := mode
      target_humidity := (target_humidity : Int)
      environment_temperature := (environment_temperature : Int) - 40
      environment_humidity := (environment_humidity : Int)
      electromagnetic_state := decide (0 < state_flag &&& DeyeDeviceStateFlag.ELECTROMAGNETIC_STATE)
      press_state := decide (0 < state_flag &&& DeyeDeviceStateFlag.PRESS_STATE)
      environment_degree := decide (0 < state_flag &&& DeyeDeviceStateFlag.ENVIRONMENT_DEGREE)
      poweroff_switch := decide (0 < state_flag &&& DeyeDeviceStateFlag.POWEROFF_SWITCH)
      poweron_switch := decide (0 < state_flag &&& DeyeDeviceStateFlag.POWERON_SWITCH)
      coil_temperature := (coil_temperature : Int) - 40
      exhaust_temperature := (exhaust_temperature : Int) - 40 }

/-- The `command_flag` accumulated by the legacy
`DeyeDeviceCommand.bytes` in `device_state_command.py`. -/
def commandFlag (c : DeyeDeviceCommand) : Nat :=
  ((((0 ||| (if c.anion_switch then DeyeDeviceCommandFlag.ANION_SWITCH else 0))
      ||| (if c.water_pump_switch then DeyeDeviceCommandFlag.WATER_PUMP_SWITCH else 0))
      ||| (if c.power_switch then DeyeDeviceCommandFlag.POWER_SWITCH else 0))
      ||| (if c.oscillating_switch then DeyeDeviceCommandFlag.OSCILLATING_SWITCH else 0))
      ||| (if c.child_lock_switch then DeyeDeviceCommandFlag.CHILD_LOCK_SWITCH else 0)

/-- The legacy `DeyeDeviceCommand.bytes` from `device_state_command.py`,
with `bytes([...])` range failures modelled by `none` as in `to_bytes`. -/
def command_bytes (c : DeyeDeviceCommand) : Option (List Nat) :=
  if 0 ≤ c.target_humidity ∧ c.target_humidity < 256 then
    some [0x08, 0x02, Legacy.commandFlag c,
          c.fan_speed.toNat <<< 4 ||| c.mode.toNat,
          c.target_humidity.toNat, 0, 0, 0, 0, 0]
  else none

end Legacy

/-- Lowercase hex digit character for `n < 16` (used only to render byte
frames as hex strings when stating claims about the decoder). -/
def toHexDigit (n : Nat) : Char :=
  match n with
  | 0 => '0' | 1 => '1' | 2 => '2' | 3 => '3' | 4 => '4'
  | 5 => '5' | 6 => '6' | 7 => '7' | 8 => '8' | 9 => '9'
  | 10 => 'a' | 11 => 'b' | 12 => 'c' | 13 => 'd' | 14 => 'e'
  | _ => 'f'

/-- Canonical hex rendering of a byte list (inverse of `bytesFromHex?`). -/
def bytesToHex (l : List Nat) : List Char :=
  l.foldr (fun b acc => toHexDigit (b / 16) :: toHexDigit (b % 16) :: acc) []

/-- High byte of the state-flag field carrying the given switch values
(state-flag bits 8/9/10 are POWER/OSCILLATING/CHILD_LOCK). -/
def commandEquivalentFlagHi (p o cl : Bool) : Nat :=
  (if p then 1 else 0) + (if o then 2 else 0) + (if cl then 4 else 0)

/-- Low byte of the state-flag field carrying the given switch values
(state-flag bits 0/1 are ANION/WATER_PUMP). -/
def commandEquivalentFlagLo (a w : Bool) : Nat :=
  (if a then 1 else 0) + (if w then 2 else 0)

/-- The canonical Classic state frame that carries exactly the eight
command fields of `c` per the §4.1 decode layout: state-flag bits at bytes
`[2:4]`, fan-speed/mode nibbles in byte `[4]` (string indexes 8/9), target
humidity in byte `[5]`; the leading two bytes match the repository's test
frames and all remaining bytes are zero (18 bytes total). -/
def encodeCommandEquivalentFrame (c : DeyeDeviceCommand) : List Char :=
  bytesToHex [0x14, 0x11,
              commandEquivalentFlagHi c.power_switch c.oscillating_switch c.child_lock_switch,
              commandEquivalentFlagLo c.anion_switch c.water_pump_switch,
              c.fan_speed.toNat * 16 + c.mode.toNat, c.target_humidity.toNat,
              0, 0, 0, 0, 0, 0, 0, 0, 0, 0, 0, 0]

/-! ### MQTT client model

State-machine embedding of `BaseDeyeMqttClient`/`DeyeClassicMqttClient`
from `mqtt_client.py`. Topics are `String`s, command payloads byte lists,
and callbacks are identified by `Nat` tokens. The paho client is modelled
by a `connected` flag, the set of topics currently subscribed at the
broker (`netSubscriptions`, mutated by `mqtt.subscribe`/`mqtt.unsubscribe`)
and the ordered log of `mqtt.publish` calls (`published`). -/

structure MqttClientModel where
  connected : Bool
  subscribers : List (String × List Nat)
  netSubscriptions : List String
  pending_commands : List (String × List Nat)
  published : List (String × List Nat)
deriving DecidableEq, Repr

/-- The callback set registered for `topic` (`self._subscribers[topic]`,
empty when the key is absent). Sets are modelled as duplicate-free lists. -/
def lookupCallbacks (subs : List (String × List Nat)) (topic : String) : List Nat :=
  match subs.find? (fun e => e.1 == topic) with
  | some e => e.2
  | none => []

/-- Store `cbs` as the callback set for `topic`: replace the entry of the
first matching key, or append a fresh entry when the key is absent
(`self._subscribers[topic] = ...` on the dict model). -/
def storeCallbacks : List (String × List Nat) → String → List Nat → List (String × List Nat)
  | [], topic, cbs => [(topic, cbs)]
  | e :: rest, topic, cbs =>
    if e.1 == topic then (e.1, cbs) :: rest else e :: storeCallbacks rest topic cbs

/-- `set.add`: a no-op when the element is present. -/
def setAdd (s : List Nat) (x : Nat) : List Nat :=
  if x ∈ s then s else s ++ [x]

/-- Broker-side subscription set insertion (`mqtt.subscribe(topic)`). -/
def topicAdd (s : List String) (t : String) : List String :=
  if t ∈ s then s else s ++ [t]

/-- `BaseDeyeMqttClient._subscribe_topic` (the registration part): create
the registry entry if absent, record the prior callback count, add the
callback, and network-subscribe only when connected and the topic was
previously callback-free. -/
def subscribe_topic (st : MqttClientModel) (topic : String) (cb : Nat) : MqttClientModel :=
  let current := lookupCallbacks st.subscribers topic
  let st1 := { st with subscribers := storeCallbacks st.subscribers topic (setAdd current cb) }
  if st.connected && decide (current.length = 0) then
    { st1 with netSubscriptions := topicAdd st1.netSubscriptions topic }
  else st1

/-- The `unsubscribe` closure returned by
`BaseDeyeMqttClient._subscribe_topic`: `self._subscribers[topic].remove(callback)`
raises `KeyError` when the callback is not registered (modelled by `none`);
otherwise it removes the callback and network-unsubscribes only when
connected and the callback set became empty. -/
def unsubscribe_topic (st : MqttClientModel) (topic : String) (cb : Nat) :
    Option MqttClientModel :=
  let s := lookupCallbacks st.subscribers topic
  if cb ∈ s then
    let sNew := s.erase cb
    let st1 := { st with subscribers := storeCallbacks st.subscribers topic sNew }
    if st.connected && decide (sNew.length = 0) then
      some { st1 with netSubscriptions := st1.netSubscriptions.erase topic }
    else some st1
  else none

/-- `DeyeClassicMqttClient.publish_command` (transport part, after the
command is rendered to bytes): publish immediately when connected,
otherwise append to the pending-command queue. -/
def publish_command (st : MqttClientModel) (topic : String) (payload : List Nat) :
    MqttClientModel :=
  if st.connected then { st with published := st.published ++ [(topic, payload)] }
  else { st with pending_commands := st.pending_commands ++ [(topic, payload)] }

/-- `BaseDeyeMqttClient._mqtt_on_connect`: re-subscribe every topic with a
non-empty callback set, then publish every pending command in queue order
and clear the queue. The event fires when the transport has connected, so
`connected` is set. -/
def mqtt_on_connect (st : MqttClientModel) : MqttClientModel :=
  let st1 :=
    { st with
      connected := true
      netSubscriptions :=
        (st.subscribers.filter (fun (e : String × List Nat) => decide (0 < e.2.length))).foldl
          (fun acc (e : String × List Nat) => topicAdd acc e.1) st.netSubscriptions }
  { st1 with
    published := st1.published ++ st1.pending_commands
    pending_commands := [] }

/-- State of one `query_device_state` call on the Classic client:
`future_result` is the one-shot `Future` (`none` while pending, so
`future.done()` is `Option.isSome`), `subscribed` tracks the one-shot
subscription installed before the query command is published. -/
structure OneShotQuery where
  future_result : Option DeyeDeviceState
  subscribed : Bool
deriving DecidableEq, Repr

/-- The `on_message` closure inside `DeyeClassicMqttClient.query_device_state`:
only when the future is not yet done, resolve it with the delivered state
and immediately remove the one-shot subscription. -/
def query_on_message (q : OneShotQuery) (state : DeyeDeviceState) : OneShotQuery :=
  if q.future_result.isSome then q
  else { future_result := some state, subscribed := false }

/-! ### Helper lemmas -/

theorem hexDigitVal?_lt {c : Char} {v : Nat} (h : hexDigitVal? c = some v) : v < 16 := by
  simp only [hexDigitVal?] at h
  split at h
  · injection h with h; omega
  split at h
  · injection h with h; omega
  split at h
  · injection h with h; omega
  · exact absurd h (by simp)

theorem hexDigitVal?_toHexDigit : ∀ n, n < 16 → hexDigitVal? (toHexDigit n) = some n := by
  decide

theorem fanSpeed_ofNat?_toNat (f : DeyeFanSpeed) : DeyeFanSpeed.ofNat? f.toNat = some f := by
  cases f <;> rfl

theorem deviceMode_ofNat?_toNat (m : DeyeDeviceMode) : DeyeDeviceMode.ofNat? m.toNat = some m := by
  cases m <;> rfl

theorem fanSpeed_toNat_lt (f : DeyeFanSpeed) : f.toNat < 5 := by
  cases f <;> decide

theorem deviceMode_toNat_lt (m : DeyeDeviceMode) : m.toNat < 7 := by
  cases m <;> decide

theorem fanSpeed_ofNat?_sound {n : Nat} {f : DeyeFanSpeed}
    (h : DeyeFanSpeed.ofNat? n = some f) : f.toNat = n := by
  unfold DeyeFanSpeed.ofNat? at h
  split at h
  all_goals first
    | (injection h with h; subst h; rfl)
    | simp at h

theorem deviceMode_ofNat?_sound {n : Nat} {m : DeyeDeviceMode}
    (h : DeyeDeviceMode.ofNat? n = some m) : m.toNat = n := by
  unfold DeyeDeviceMode.ofNat? at h
  split at h
  all_goals first
    | (injection h with h; subst h; rfl)
    | simp at h

theorem bytesFromHex?_bytesToHex :
    ∀ L : List Nat, (∀ b ∈ L, b < 256) → bytesFromHex? (bytesToHex L) = some L := by
  intro L
  induction L with
  | nil => intro _; rfl
  | cons b bs ih =>
    intro h
    have hb : b < 256 := h b (List.mem_cons_self b bs)
    have hbs : ∀ x ∈ bs, x < 256 := fun x hx => h x (List.mem_cons_of_mem _ hx)
    show bytesFromHex? (toHexDigit (b / 16) :: toHexDigit (b % 16) :: bytesToHex bs)
        = some (b :: bs)
    rw [bytesFromHex?]
    rw [hexDigitVal?_toHexDigit _ (by omega), hexDigitVal?_toHexDigit _ (by omega), ih hbs]
    have hrt : 16 * (b / 16) + b % 16 = b := by omega
    simp [hrt]

/-- In a successful `bytesFromHex?` run, byte `i` is assembled from the two
hex characters at string indexes `2*i` and `2*i+1` (high nibble first). -/
theorem bytesFromHex?_nibbles :
    ∀ (s : List Char) (hex : List Nat), bytesFromHex? s = some hex →
    ∀ i b, hex.get? i = some b →
      ∃ chi clo, s.get? (2 * i) = some chi ∧ s.get? (2 * i + 1) = some clo ∧
        hexDigitVal? chi = some (b / 16) ∧ hexDigitVal? clo = some (b % 16) := by
  intro s hex
  induction hex generalizing s with
  | nil => intro _ i b hb; simp at hb
  | cons x xs ih =>
    intro hparse i b hb
    match s with
    | [] => exact absurd hparse (by simp [bytesFromHex?])
    | [c] => exact absurd hparse (by simp [bytesFromHex?])
    | c1 :: c2 :: rest =>
      rw [bytesFromHex?] at hparse
      simp only [Option.bind_eq_bind, Option.bind_eq_some, Option.some.injEq,
        List.cons.injEq] at hparse
      obtain ⟨hi, hhi, lo, hlo, bs, hbs, hx1, hx2⟩ := hparse
      replace hx1 : x = 16 * hi + lo := hx1.symm
      subst hx2
      cases i with
      | zero =>
        have hbx : x = b := by simpa using hb
        have hlo16 : lo < 16 := hexDigitVal?_lt hlo
        have hdiv : b / 16 = hi := by omega
        have hmod : b % 16 = lo := by omega
        exact ⟨c1, c2, rfl, rfl, by rw [hdiv]; exact hhi, by rw [hmod]; exact hlo⟩
      | succ i =>
        have hb' : bs.get? i = some b := by simpa using hb
        obtain ⟨chi, clo, h1, h2, h3, h4⟩ := ih rest hbs i b hb'
        refine ⟨chi, clo, ?_, ?_, h3, h4⟩
        · have : 2 * (i + 1) = 2 * i + 1 + 1 := by ring
          rw [this]
          simpa using h1
        · have : 2 * (i + 1) + 1 = (2 * i + 1) + 1 + 1 := by ring
          rw [this]
          simpa using h2

/-- `0 < x &&& 2^k` tests bit `k`. -/
theorem decide_and_two_pow (x k : Nat) : decide (0 < x &&& 2 ^ k) = x.testBit k := by
  rw [Nat.and_two_pow]
  cases h : x.testBit k
  · simp
  · simp [Nat.two_pow_pos]

/-- Looking up a topic right after storing a callback set returns that set. -/
theorem lookupCallbacks_store (subs : List (String × List Nat)) (t : String) (cbs : List Nat) :
    lookupCallbacks (storeCallbacks subs t cbs) t = cbs := by
  induction subs with
  | nil => simp [storeCallbacks, lookupCallbacks, List.find?]
  | cons e rest ih =>
    by_cases h : (e.1 == t) = true
    · rw [storeCallbacks, if_pos h]
      unfold lookupCallbacks
      rw [List.find?]
      simp [h]
    · rw [storeCallbacks, if_neg h]
      unfold lookupCallbacks at ih ⊢
      rw [List.find?]
      simp only [Bool.not_eq_true] at h
      rw [h]
      exact ih

/-! ### Claim theorems -/

/-- C3: Classic command encode layout. For every command whose target
humidity fits in a byte, `to_bytes` is exactly
`[0x08, 0x02, flags, (fan_speed<<4)|mode, target_humidity, 0,0,0,0,0]`
with `flags` the bitwise-OR of POWER (bit 0), OSCILLATING (bit 1),
CHILD_LOCK (bit 2), WATER_PUMP (bit 5) and ANION (bit 6) for the switches
that are on; the default command encodes to `08 02 00 10 3c 00 00 00 00 00`,
power+child-lock gives flag byte `0x05`, and all five switches give `0x67`. -/
theorem classic_command_encode_layout :
    (∀ c : DeyeDeviceCommand, 0 ≤ c.target_humidity → c.target_humidity < 256 →
      c.to_bytes =
        some [0x08, 0x02,
              (if c.power_switch then 1 else 0) ||| (if c.oscillating_switch then 2 else 0)
                ||| (if c.child_lock_switch then 4 else 0)
                ||| (if c.water_pump_switch then 32 else 0)
                ||| (if c.anion_switch then 64 else 0),
              c.fan_speed.toNat <<< 4 ||| c.mode.toNat,
              c.target_humidity.toNat, 0, 0, 0, 0, 0]) ∧
    ({} : DeyeDeviceCommand).to_bytes = some [0x08, 0x02, 0x00, 0x10, 0x3c, 0, 0, 0, 0, 0] ∧
    ({ power_switch := true, child_lock_switch := true } : DeyeDeviceCommand).to_bytes =
      some [0x08, 0x02, 0x05, 0x10, 0x3c, 0, 0, 0, 0, 0] ∧
    ({ anion_switch := true, water_pump_switch := true, power_switch := true,
       oscillating_switch := true, child_lock_switch := true } : DeyeDeviceCommand).to_bytes =
      some [0x08, 0x02, 0x67, 0x10, 0x3c, 0, 0, 0, 0, 0] := by
  refine ⟨?_, by decide, by decide, by decide⟩
  intro c h0 h256
  rcases c with ⟨a, w, p, o, cl, fs, md, th⟩
  unfold DeyeDeviceCommand.to_bytes
  rw [if_pos ⟨h0, h256⟩]
  cases a <;> cases w <;> cases p <;> cases o <;> cases cl <;>
    simp [DeyeDeviceCommand.commandFlag, DeyeDeviceCommandFlag.POWER_SWITCH,
      DeyeDeviceCommandFlag.OSCILLATING_SWITCH, DeyeDeviceCommandFlag.CHILD_LOCK_SWITCH,
      DeyeDeviceCommandFlag.WATER_PUMP_SWITCH, DeyeDeviceCommandFlag.ANION_SWITCH]

/-- Witness for C3 at a concrete command. -/
theorem classic_command_encode_layout_witness :
    ({ power_switch := true } : DeyeDeviceCommand).to_bytes =
      some [8, 2, 1, 16, 60, 0, 0, 0, 0, 0] := by
  have h := classic_command_encode_layout.1 { power_switch := true } (by decide) (by decide)
  simpa using h

/-- C6: `DeyeDeviceState` equality holds exactly when the thirteen
public/observable fields agree; the seven diagnostic fields never enter
the comparison, and a difference in any single public field falsifies it. -/
theorem device_state_equality_public_fields :
    ∀ s o : DeyeDeviceState, DeyeDeviceState.eq s o = true ↔
      (s.anion_switch = o.anion_switch ∧ s.water_pump_switch = o.water_pump_switch ∧
       s.power_switch = o.power_switch ∧ s.oscillating_switch = o.oscillating_switch ∧
       s.child_lock_switch = o.child_lock_switch ∧ s.defrosting = o.defrosting ∧
       s.water_tank_full = o.water_tank_full ∧ s.fan_running = o.fan_running ∧
       s.fan_speed = o.fan_speed ∧ s.mode = o.mode ∧
       s.target_humidity = o.target_humidity ∧
       s.environment_temperature = o.environment_temperature ∧
       s.environment_humidity = o.environment_humidity) := by
  intro s o
  simp [DeyeDeviceState.eq, Bool.and_eq_true, decide_eq_true_eq, and_assoc]

/-- C7: one-shot query single resolution. From a pending query the first
delivered state resolves the future and immediately drops the one-shot
subscription; once the future is done any further callback invocation is a
no-op (no second resolution, no second unsubscribe), so a double delivery
equals a single one. -/
theorem query_single_resolution :
    (∀ s : DeyeDeviceState,
      query_on_message ⟨none, true⟩ s = ⟨some s, false⟩) ∧
    (∀ (q : OneShotQuery) (s : DeyeDeviceState), q.future_result.isSome = true →
      query_on_message q s = q) ∧
    (∀ (q : OneShotQuery) (s1 s2 : DeyeDeviceState),
      query_on_message (query_on_message q s1) s2 = query_on_message q s1) := by
  refine ⟨fun s => rfl, ?_, ?_⟩
  · intro q s h
    simp [query_on_message, h]
  · intro q s1 s2
    by_cases h : q.future_result.isSome <;> simp [query_on_message, h]

/-- Witness for C7: a done future is left untouched by a later delivery. -/
theorem query_single_resolution_witness :
    query_on_message ⟨some {}, true⟩ {} = ⟨some {}, true⟩ := by
  exact query_single_resolution.2.1 ⟨some {}, true⟩ {} rfl

/-- C8: pending-command queue discipline. Publishing while disconnected
appends to the pending queue (nothing reaches the transport yet);
publishing while connected publishes immediately without touching the
queue; the on-connect event publishes every buffered pair exactly once in
FIFO order and leaves the queue empty. -/
theorem pending_command_queue_discipline :
    (∀ (st : MqttClientModel) (t : String) (p : List Nat), st.connected = false →
      (publish_command st t p).pending_commands = st.pending_commands ++ [(t, p)] ∧
      (publish_command st t p).published = st.published) ∧
    (∀ (st : MqttClientModel) (t : String) (p : List Nat), st.connected = true →
      (publish_command st t p).published = st.published ++ [(t, p)] ∧
      (publish_command st t p).pending_commands = st.pending_commands) ∧
    (∀ st : MqttClientModel,
      (mqtt_on_connect st).published = st.published ++ st.pending_commands ∧
      (mqtt_on_connect st).pending_commands = []) := by
  refine ⟨?_, ?_, ?_⟩ <;> intros <;> simp_all [publish_command, mqtt_on_connect]

/-- Witness for C8: a command queued while disconnected, then flushed once
by the on-connect event. -/
theorem pending_command_queue_discipline_witness :
    (publish_command ⟨false, [], [], [], []⟩ "t" [1]).pending_commands = [("t", [1])] ∧
    (mqtt_on_connect (publish_command ⟨false, [], [], [], []⟩ "t" [1])).published =
      [("t", [1])] := by
  have h1 := (pending_command_queue_discipline.1 ⟨false, [], [], [], []⟩ "t" [1] rfl).1
  have h2 := (pending_command_queue_discipline.2.2
    (publish_command ⟨false, [], [], [], []⟩ "t" [1])).1
  refine ⟨h1, ?_⟩
  rw [h2, h1]
  rfl

/-- C9 counterexample: the unsubscribe closure is not idempotent. On a
client with callback `1` registered for topic `"t"`, the first call
succeeds but the second call hits `set.remove` on a set that no longer
contains the callback and raises `KeyError` (modelled by `none`) instead
of being a no-op. -/
theorem unsubscribe_second_call_raises :
    ((unsubscribe_topic ⟨false, [("t", [1])], [], [], []⟩ "t" 1).isSome = true) ∧
    (unsubscribe_topic ⟨false, [("t", [1])], [], [], []⟩ "t" 1).bind
      (fun st1 => unsubscribe_topic st1 "t" 1) = none := by decide

/-- C9 (amended): a single call of the unsubscribe closure while the
callback is still registered succeeds, and when the transport is
disconnected it only removes the local registration — the broker-side
subscription set, connection flag, pending queue and publish log are
untouched; but a second call is an error, not a no-op (see the
counterexample). -/
theorem unsubscribe_disconnected_local_only :
    ∀ (st : MqttClientModel) (t : String) (cb : Nat),
      cb ∈ lookupCallbacks st.subscribers t → st.connected = false →
      ∃ st', unsubscribe_topic st t cb = some st' ∧
        st'.connected = st.connected ∧
        st'.netSubscriptions = st.netSubscriptions ∧
        st'.pending_commands = st.pending_commands ∧
        st'.published = st.published ∧
        lookupCallbacks st'.subscribers t = (lookupCallbacks st.subscribers t).erase cb := by
  intro st t cb hmem hconn
  refine ⟨{ st with subscribers := storeCallbacks st.subscribers t ((lookupCallbacks st.subscribers t).erase cb) }, ?_, rfl, rfl, rfl, rfl, lookupCallbacks_store st.subscribers t _⟩
  simp only [unsubscribe_topic]
  rw [if_pos hmem, hconn]
  simp

/-- Witness for the amended C9 at a concrete disconnected client. -/
theorem unsubscribe_disconnected_local_only_witness :
    ∃ st', unsubscribe_topic ⟨false, [("t", [1, 2])], ["t"], [], []⟩ "t" 1 = some st' ∧
      st'.netSubscriptions = ["t"] ∧ lookupCallbacks st'.subscribers "t" = [2] := by
  obtain ⟨st', h1, _, h3, _, _, h6⟩ :=
    unsubscribe_disconnected_local_only ⟨false, [("t", [1, 2])], ["t"], [], []⟩ "t" 1
      (by decide) rfl
  exact ⟨st', h1, h3, h6.trans (by decide)⟩

/-- C10: legacy/current codec equivalence. The legacy parser
`deal_v1_state` agrees with the current `_parse_state_classic` on every
input (same success/failure and same resulting state, in particular the 13
public fields), and the legacy `bytes()` agrees with the current
`to_bytes()` on every command. -/
theorem legacy_current_codec_equivalence :
    (∀ s : List Char, Legacy.deal_v1_state s = parse_state_classic s) ∧
    (∀ c : DeyeDeviceCommand, Legacy.command_bytes c = c.to_bytes) :=
  ⟨fun _ => rfl, fun _ => rfl⟩

/-- C5: Fog decode defaults and boolean interpretation. Every boolean
field equals (map value ≠ 0); absent optional keys give fan speed STOPPED,
mode SLEEP, target humidity 60, ambient temperature 27, ambient humidity
27; present numeric values are taken verbatim (no offset arithmetic). -/
theorem fog_decode_defaults_and_booleans :
    ∀ (p : FogProperties) (st : DeyeDeviceState), parse_state_fog p = some st →
      (st.anion_switch = decide (p.NegativeIon ≠ 0) ∧
       st.water_pump_switch = decide (p.WaterPump ≠ 0) ∧
       st.power_switch = decide (p.Power ≠ 0) ∧
       st.oscillating_switch = decide (p.SwingingWind ≠ 0) ∧
       st.child_lock_switch = decide (p.KeyLock ≠ 0) ∧
       st.defrosting = decide (p.Demisting ≠ 0) ∧
       st.water_tank_full = decide (p.WaterTank ≠ 0) ∧
       st.fan_running = decide (p.Fan ≠ 0)) ∧
      (p.WindSpeed = none → st.fan_speed = .STOPPED) ∧
      (p.Mode = none → st.mode = .SLEEP_MODE) ∧
      (p.SetHumidity = none → st.target_humidity = 60) ∧
      (p.CurrentAmbientTemperature = none → st.environment_temperature = 27) ∧
      (p.CurrentEnvironmentalHumidity = none → st.environment_humidity = 27) ∧
      (∀ v, p.SetHumidity = some v → st.target_humidity = v) ∧
      (∀ v, p.CurrentAmbientTemperature = some v → st.environment_temperature = v) ∧
      (∀ v, p.CurrentEnvironmentalHumidity = some v → st.environment_humidity = v) := by
  intro p st h
  unfold parse_state_fog at h
  simp only [Option.bind_eq_bind, Option.bind_eq_some, Option.some.injEq] at h
  obtain ⟨fs, hfs, md, hmd, hst⟩ := h
  subst hst
  refine ⟨⟨rfl, rfl, rfl, rfl, rfl, rfl, rfl, rfl⟩, ?_, ?_, ?_, ?_, ?_, ?_, ?_, ?_⟩
  · intro hw
    rw [hw] at hfs
    simp [DeyeFanSpeed.ofInt?, DeyeFanSpeed.ofNat?] at hfs
    simp [← hfs]
  · intro hm
    rw [hm] at hmd
    simp [DeyeDeviceMode.ofInt?, DeyeDeviceMode.ofNat?] at hmd
    simp [← hmd]
  · intro hs; simp [hs]
  · intro ht; simp [ht]
  · intro hh; simp [hh]
  · intro v hv; simp [hv]
  · intro v hv; simp [hv]
  · intro v hv; simp [hv]

/-- Witness for C5: a Fog map with all optional keys absent parses to the
stated defaults. -/
theorem fog_decode_defaults_witness :
    ∃ st, parse_state_fog
        { NegativeIon := 1, WaterPump := 0, Power := 1, SwingingWind := 0,
          KeyLock := 0, Demisting := 0, WaterTank := 1, Fan := 1 } = some st ∧
      st.fan_speed = .STOPPED ∧ st.mode = .SLEEP_MODE ∧ st.target_humidity = 60 ∧
      st.environment_temperature = 27 ∧ st.environment_humidity = 27 ∧
      st.anion_switch = true ∧ st.water_pump_switch = false := by
  have hp : parse_state_fog
      { NegativeIon := 1, WaterPump := 0, Power := 1, SwingingWind := 0,
        KeyLock := 0, Demisting := 0, WaterTank := 1, Fan := 1 } =
      some { anion_switch := true, water_pump_switch := false, power_switch := true,
             oscillating_switch := false, child_lock_switch := false, defrosting := false,
             water_tank_full := true, fan_running := true, fan_speed := .STOPPED,
             mode := .SLEEP_MODE, target_humidity := 60, environment_temperature := 27,
             environment_humidity := 27, electromagnetic_state := false, press_state := false,
             environment_degree := false, poweroff_switch := false, poweron_switch := false,
             coil_temperature := 27, exhaust_temperature := 27 } := by decide
  have h := fog_decode_defaults_and_booleans _ _ hp
  exact ⟨_, hp, h.2.1 rfl, h.2.2.1 rfl, h.2.2.2.1 rfl, h.2.2.2.2.1 rfl,
    h.2.2.2.2.2.1 rfl, h.1.1, h.1.2.1⟩

/-- C2: Classic state decode layout. On every successful parse the eight
boolean switches are the bits of the big-endian 16-bit flag field at bytes
`[2:4]` (ANION=bit 0, WATER_PUMP=bit 1, POWER=bit 8, OSCILLATING=bit 9,
CHILD_LOCK=bit 10, DEFROSTING=bit 13, WATER_TANK_FULL=bit 14,
FAN_RUNNING=bit 15), fan speed and mode are the high/low hex nibbles of
byte `[4]` (string indexes 8 and 9), target humidity is byte `[5]`,
ambient temperature is byte `[15]` minus 40 and ambient humidity is byte
`[16]`; the two spec example frames decode as stated. -/
theorem classic_decode_layout :
    (∀ (s : List Char) (hex : List Nat) (st : DeyeDeviceState),
      bytesFromHex? s = some hex → parse_state_classic s = some st →
      (st.anion_switch = (intFromBytesBE ((hex.drop 2).take 2)).testBit 0 ∧
       st.water_pump_switch = (intFromBytesBE ((hex.drop 2).take 2)).testBit 1 ∧
       st.power_switch = (intFromBytesBE ((hex.drop 2).take 2)).testBit 8 ∧
       st.oscillating_switch = (intFromBytesBE ((hex.drop 2).take 2)).testBit 9 ∧
       st.child_lock_switch = (intFromBytesBE ((hex.drop 2).take 2)).testBit 10 ∧
       st.defrosting = (intFromBytesBE ((hex.drop 2).take 2)).testBit 13 ∧
       st.water_tank_full = (intFromBytesBE ((hex.drop 2).take 2)).testBit 14 ∧
       st.fan_running = (intFromBytesBE ((hex.drop 2).take 2)).testBit 15) ∧
      (∃ b4, hex.get? 4 = some b4 ∧ st.fan_speed.toNat = b4 / 16 ∧ st.mode.toNat = b4 % 16) ∧
      (∃ b5, hex.get? 5 = some b5 ∧ st.target_humidity = (b5 : Int)) ∧
      (∃ b15, hex.get? 15 = some b15 ∧ st.environment_temperature = (b15 : Int) - 40) ∧
      (∃ b16, hex.get? 16 = some b16 ∧ st.environment_humidity = (b16 : Int))) ∧
    ((parse_state_classic ("141181001132000000000000000000413C0000000000".toList)).map
        (fun st => (st.target_humidity, st.environment_temperature, st.environment_humidity))
      = some (50, 25, 60)) ∧
    ((parse_state_classic ("14118100113B00000000000000000040300000000000".toList)).map
        (fun st => (st.water_tank_full, st.fan_running, st.power_switch, st.fan_speed, st.mode))
      = some (false, true, true, DeyeFanSpeed.LOW, DeyeDeviceMode.CLOTHES_DRYER_MODE)) := by
  refine ⟨?_, by decide, by decide⟩
  intro s hex st hbytes hparse
  unfold parse_state_classic at hparse
  simp only [Option.bind_eq_bind, Option.bind_eq_some, Option.some.injEq] at hparse
  obtain ⟨hex', hhex', c8, hc8, v8, hv8, fs, hfs, c9, hc9, v9, hv9, md, hmd,
    b5, hb5, b15, hb15, b16, hb16, b14, hb14, b17, hb17, hst⟩ := hparse
  rw [hbytes] at hhex'
  injection hhex' with hhex'
  subst hhex'
  subst hst
  dsimp only
  have hlen : 17 < hex.length := by
    rcases List.get?_eq_some.mp hb17 with ⟨h, _⟩
    exact h
  refine ⟨⟨?_, ?_, ?_, ?_, ?_, ?_, ?_, ?_⟩, ?_, ⟨b5, hb5, rfl⟩, ⟨b15, hb15, rfl⟩,
    ⟨b16, hb16, rfl⟩⟩
  · rw [show (DeyeDeviceStateFlag.ANION_SWITCH : Nat) = 2 ^ 0 from rfl]
    exact decide_and_two_pow _ 0
  · rw [show (DeyeDeviceStateFlag.WATER_PUMP_SWITCH : Nat) = 2 ^ 1 from rfl]
    exact decide_and_two_pow _ 1
  · rw [show (DeyeDeviceStateFlag.POWER_SWITCH : Nat) = 2 ^ 8 from rfl]
    exact decide_and_two_pow _ 8
  · rw [show (DeyeDeviceStateFlag.OSCILLATING_SWITCH : Nat) = 2 ^ 9 from rfl]
    exact decide_and_two_pow _ 9
  · rw [show (DeyeDeviceStateFlag.CHILD_LOCK_SWITCH : Nat) = 2 ^ 10 from rfl]
    exact decide_and_two_pow _ 10
  · rw [show (DeyeDeviceStateFlag.DEFROSTING_STATE : Nat) = 2 ^ 13 from rfl]
    exact decide_and_two_pow _ 13
  · rw [show (DeyeDeviceStateFlag.WATER_TANK_FULL_STATE : Nat) = 2 ^ 14 from rfl]
    exact decide_and_two_pow _ 14
  · rw [show (DeyeDeviceStateFlag.FAN_RUNNING_STATE : Nat) = 2 ^ 15 from rfl]
    exact decide_and_two_pow _ 15
  · obtain ⟨b4, hb4⟩ : ∃ b4, hex.get? 4 = some b4 :=
      ⟨_, List.get?_eq_get (by omega)⟩
    obtain ⟨chi, clo, hchi, hclo, hvchi, hvclo⟩ :=
      bytesFromHex?_nibbles s hex hbytes 4 b4 hb4
    replace hchi : s.get? 8 = some chi := by
      rw [show (8 : Nat) = 2 * 4 from rfl]
      exact hchi
    replace hclo : s.get? 9 = some clo := by
      rw [show (9 : Nat) = 2 * 4 + 1 from rfl]
      exact hclo
    rw [hc8] at hchi
    injection hchi with hchi
    subst hchi
    rw [hc9] at hclo
    injection hclo with hclo
    subst hclo
    rw [hv8] at hvchi
    injection hvchi with hvchi
    rw [hv9] at hvclo
    injection hvclo with hvclo
    exact ⟨b4, hb4, (fanSpeed_ofNat?_sound hfs).trans hvchi,
      (deviceMode_ofNat?_sound hmd).trans hvclo⟩

/-- C4 counterexample: a well-formed 17-byte frame (34 hex characters)
with in-range fan-speed and mode nibbles still fails to decode, because
the parser reads byte `[17]` (the exhaust-temperature diagnostic), which
requires at least 18 bytes — refuting the claim that 17 decoded bytes
suffice. -/
theorem classic_decode_17_byte_frame_fails :
    (bytesFromHex? ("1411810011320000000000000000004130".toList) =
      some [0x14, 0x11, 0x81, 0x00, 0x11, 0x32, 0, 0, 0, 0, 0, 0, 0, 0, 0, 0x41, 0x30]) ∧
    ([0x14, 0x11, 0x81, 0x00, 0x11, 0x32, 0, 0, 0, 0, 0, 0, 0, 0, 0, 0x41, 0x30] : List Nat).length = 17 ∧
    (("1411810011320000000000000000004130".toList).get? 8 = some '1' ∧
      hexDigitVal? '1' = some 1 ∧ 1 ≤ 4) ∧
    (("1411810011320000000000000000004130".toList).get? 9 = some '1' ∧
      hexDigitVal? '1' = some 1 ∧ 1 ≤ 6) ∧
    parse_state_classic ("1411810011320000000000000000004130".toList) = none := by
  decide

/-- C4 (amended): constructing a `DeyeDeviceState` from a hex string fails
exactly on malformed input, but the frame needs at least 18 decoded bytes
(not the 17 the spec states, since the parser reads byte `[17]`): decoding
succeeds on every valid hex string of at least 18 decoded bytes whose
fan-speed nibble (string index 8) is in 0..4 and mode nibble (string index
9) is in 0..6. -/
theorem classic_decode_18_bytes_succeeds :
    ∀ (s : List Char) (hex : List Nat), bytesFromHex? s = some hex → 18 ≤ hex.length →
    ∀ (c8 : Char) (v8 : Nat), s.get? 8 = some c8 → hexDigitVal? c8 = some v8 → v8 ≤ 4 →
    ∀ (c9 : Char) (v9 : Nat), s.get? 9 = some c9 → hexDigitVal? c9 = some v9 → v9 ≤ 6 →
    (parse_state_classic s).isSome = true := by
  intro s hex hbytes hlen c8 v8 hc8 hv8 hv8le c9 v9 hc9 hv9 hv9le
  obtain ⟨fs, hfs⟩ : ∃ fs, DeyeFanSpeed.ofNat? v8 = some fs := by
    interval_cases v8 <;> exact ⟨_, rfl⟩
  obtain ⟨md, hmd⟩ : ∃ md, DeyeDeviceMode.ofNat? v9 = some md := by
    interval_cases v9 <;> exact ⟨_, rfl⟩
  have h5 : hex.get? 5 = some (hex.get ⟨5, by omega⟩) := List.get?_eq_get (by omega)
  have h14 : hex.get? 14 = some (hex.get ⟨14, by omega⟩) := List.get?_eq_get (by omega)
  have h15 : hex.get? 15 = some (hex.get ⟨15, by omega⟩) := List.get?_eq_get (by omega)
  have h16 : hex.get? 16 = some (hex.get ⟨16, by omega⟩) := List.get?_eq_get (by omega)
  have h17 : hex.get? 17 = some (hex.get ⟨17, by omega⟩) := List.get?_eq_get (by omega)
  unfold parse_state_classic
  rw [hbytes]
  simp only [Option.bind_eq_bind, Option.some_bind]
  rw [hc8]
  simp only [Option.some_bind]
  rw [hv8]
  simp only [Option.some_bind]
  rw [hfs]
  simp only [Option.some_bind]
  rw [hc9]
  simp only [Option.some_bind]
  rw [hv9]
  simp only [Option.some_bind]
  rw [hmd]
  simp only [Option.some_bind]
  rw [h5]
  simp only [Option.some_bind]
  rw [h15]
  simp only [Option.some_bind]
  rw [h16]
  simp only [Option.some_bind]
  rw [h14]
  simp only [Option.some_bind]
  rw [h17]
  simp only [Option.some_bind]
  rfl

/-- Witness for the amended C4 at the spec's 22-byte example frame. -/
theorem classic_decode_18_bytes_succeeds_witness :
    (parse_state_classic ("141181001132000000000000000000413C0000000000".toList)).isSome
      = true := by
  have h := classic_decode_18_bytes_succeeds
    ("141181001132000000000000000000413C0000000000".toList)
    [0x14, 0x11, 0x81, 0x00, 0x11, 0x32, 0, 0, 0, 0, 0, 0, 0, 0, 0, 0x41, 0x3C, 0, 0, 0, 0, 0]
    (by decide) (by decide) '1' 1 (by decide) (by decide) (by decide)
    '1' 1 (by decide) (by decide) (by decide)
  exact h

/-- C1: Classic command round-trip. For every command (target humidity in
0..255), decoding the Classic state frame that carries exactly its eight
field values and deriving a command with `to_command` returns the original
command on all eight fields. -/
theorem classic_command_roundtrip :
    ∀ c : DeyeDeviceCommand, 0 ≤ c.target_humidity → c.target_humidity < 256 →
      (parse_state_classic (encodeCommandEquivalentFrame c)).map DeyeDeviceState.to_command
        = some c := by
  intro c h0 h256
  rcases c with ⟨a, w, p, o, cl, fs, md, th⟩
  dsimp only at h0 h256 ⊢
  unfold encodeCommandEquivalentFrame
  dsimp only
  have hihi : commandEquivalentFlagHi p o cl < 256 := by
    unfold commandEquivalentFlagHi
    split_ifs <;> omega
  have hilo : commandEquivalentFlagLo a w < 256 := by
    unfold commandEquivalentFlagLo
    split_ifs <;> omega
  have hfsn := fanSpeed_toNat_lt fs
  have hmdn := deviceMode_toNat_lt md
  have hth : th.toNat < 256 := by omega
  have hmem : ∀ b ∈ [0x14, 0x11, commandEquivalentFlagHi p o cl, commandEquivalentFlagLo a w,
      fs.toNat * 16 + md.toNat, th.toNat, 0, 0, 0, 0, 0, 0, 0, 0, 0, 0, 0, 0], b < 256 := by
    intro b hb
    simp only [List.mem_cons, List.not_mem_nil, or_false] at hb
    rcases hb with rfl | rfl | rfl | rfl | rfl | rfl | rfl | rfl | rfl | rfl | rfl | rfl |
      rfl | rfl | rfl | rfl | rfl | rfl <;> omega
  have hbytes := bytesFromHex?_bytesToHex _ hmem
  have e8 : (bytesToHex [0x14, 0x11, commandEquivalentFlagHi p o cl,
      commandEquivalentFlagLo a w, fs.toNat * 16 + md.toNat, th.toNat,
      0, 0, 0, 0, 0, 0, 0, 0, 0, 0, 0, 0]).get? 8
      = some (toHexDigit ((fs.toNat * 16 + md.toNat) / 16)) := rfl
  have e9 : (bytesToHex [0x14, 0x11, commandEquivalentFlagHi p o cl,
      commandEquivalentFlagLo a w, fs.toNat * 16 + md.toNat, th.toNat,
      0, 0, 0, 0, 0, 0, 0, 0, 0, 0, 0, 0]).get? 9
      = some (toHexDigit ((fs.toNat * 16 + md.toNat) % 16)) := rfl
  have hdiv : (fs.toNat * 16 + md.toNat) / 16 = fs.toNat := by omega
  have hmod : (fs.toNat * 16 + md.toNat) % 16 = md.toNat := by omega
  have hv8 : hexDigitVal? (toHexDigit ((fs.toNat * 16 + md.toNat) / 16)) = some fs.toNat := by
    rw [hdiv]
    exact hexDigitVal?_toHexDigit _ (by omega)
  have hv9 : hexDigitVal? (toHexDigit ((fs.toNat * 16 + md.toNat) % 16)) = some md.toNat := by
    rw [hmod]
    exact hexDigitVal?_toHexDigit _ (by omega)
  have hofs := fanSpeed_ofNat?_toNat fs
  have homd := deviceMode_ofNat?_toNat md
  have g5 : ([0x14, 0x11, commandEquivalentFlagHi p o cl, commandEquivalentFlagLo a w,
      fs.toNat * 16 + md.toNat, th.toNat, 0, 0, 0, 0, 0, 0, 0, 0, 0, 0, 0, 0] : List Nat).get? 5
      = some th.toNat := rfl
  have g14 : ([0x14, 0x11, commandEquivalentFlagHi p o cl, commandEquivalentFlagLo a w,
      fs.toNat * 16 + md.toNat, th.toNat, 0, 0, 0, 0, 0, 0, 0, 0, 0, 0, 0, 0] : List Nat).get? 14
      = some 0 := rfl
  have g15 : ([0x14, 0x11, commandEquivalentFlagHi p o cl, commandEquivalentFlagLo a w,
      fs.toNat * 16 + md.toNat, th.toNat, 0, 0, 0, 0, 0, 0, 0, 0, 0, 0, 0, 0] : List Nat).get? 15
      = some 0 := rfl
  have g16 : ([0x14, 0x11, commandEquivalentFlagHi p o cl, commandEquivalentFlagLo a w,
      fs.toNat * 16 + md.toNat, th.toNat, 0, 0, 0, 0, 0, 0, 0, 0, 0, 0, 0, 0] : List Nat).get? 16
      = some 0 := rfl
  have g17 : ([0x14, 0x11, commandEquivalentFlagHi p o cl, commandEquivalentFlagLo a w,
      fs.toNat * 16 + md.toNat, th.toNat, 0, 0, 0, 0, 0, 0, 0, 0, 0, 0, 0, 0] : List Nat).get? 17
      = some 0 := rfl
  have gflag : intFromBytesBE ((([0x14, 0x11, commandEquivalentFlagHi p o cl,
      commandEquivalentFlagLo a w, fs.toNat * 16 + md.toNat, th.toNat,
      0, 0, 0, 0, 0, 0, 0, 0, 0, 0, 0, 0] : List Nat).drop 2).take 2)
      = (0 * 256 + commandEquivalentFlagHi p o cl) * 256 + commandEquivalentFlagLo a w := rfl
  unfold parse_state_classic
  rw [hbytes]
  simp only [Option.bind_eq_bind, Option.some_bind]
  rw [e8]
  simp only [Option.some_bind]
  rw [hv8]
  simp only [Option.some_bind]
  rw [hofs]
  simp only [Option.some_bind]
  rw [e9]
  simp only [Option.some_bind]
  rw [hv9]
  simp only [Option.some_bind]
  rw [homd]
  simp only [Option.some_bind]
  rw [g5]
  simp only [Option.some_bind]
  rw [g15]
  simp only [Option.some_bind]
  rw [g16]
  simp only [Option.some_bind]
  rw [g14]
  simp only [Option.some_bind]
  rw [g17]
  simp only [Option.some_bind]
  rw [gflag]
  unfold DeyeDeviceState.to_command
  simp only [Option.map_some']
  simp only [Option.some.injEq, DeyeDeviceCommand.mk.injEq]
  refine ⟨?_, ?_, ?_, ?_, ?_, trivial, trivial, ?_⟩
  · cases a <;> cases w <;> cases p <;> cases o <;> cases cl <;> decide
  · cases a <;> cases w <;> cases p <;> cases o <;> cases cl <;> decide
  · cases a <;> cases w <;> cases p <;> cases o <;> cases cl <;> decide
  · cases a <;> cases w <;> cases p <;> cases o <;> cases cl <;> decide
  · cases a <;> cases w <;> cases p <;> cases o <;> cases cl <;> decide
  · omega

/-- Witness for C1 at a concrete command. -/
theorem classic_command_roundtrip_witness :
    (parse_state_classic (encodeCommandEquivalentFrame
        { anion_switch := true, power_switch := true, fan_speed := .HIGH,
          mode := .AUTO_MODE, target_humidity := 45 })).map DeyeDeviceState.to_command
      = some { anion_switch := true, power_switch := true, fan_speed := .HIGH,
               mode := .AUTO_MODE, target_humidity := 45 } :=
  classic_command_roundtrip _ (by decide) (by decide)

end Libdeye
